import Mathlib

/-!
# Artify server — shallow embedding

A shallow embedding of the Artify Express/MongoDB backend (`index.js`).
JSON body values are modelled by `JVal`; BSON query/stored identifier
values by `BsonId` (a MongoDB filter matches on both type and value, so
an ObjectId value never equals a string value).  Each route handler
becomes a pure function from a database state (`DB`) and its request to
a `(status, payload) × DB` pair; `new Date()` within one handler is a
single clock reading `now`, and generated `_id`s are supplied as `newId`.
-/

namespace Artify

/-- JSON / JavaScript values as they appear in parsed request bodies. -/
inductive JVal where
  | undef
  | null
  | bool (b : Bool)
  | num (n : Int)
  | nan
  | str (s : String)
deriving DecidableEq, Repr

/-- Lower-casing of one character, as JS `toLowerCase` acts on ASCII. -/
def lowerChar (c : Char) : Char :=
  if 65 ≤ c.toNat ∧ c.toNat ≤ 90 then Char.ofNat (c.toNat + 32) else c

/-- Model of JS `String.prototype.toLowerCase` (ASCII range). -/
def toLowerStr (s : String) : String :=
  String.mk (s.data.map lowerChar)

/-- Whitespace test used by `trimStr`. -/
def isWs (c : Char) : Bool :=
  c = ' ' ∨ c = '\t' ∨ c = '\n' ∨ c = '\r'

/-- Model of JS `String.prototype.trim`. -/
def trimStr (s : String) : String :=
  String.mk (((s.data.dropWhile isWs).reverse.dropWhile isWs).reverse)

/-- JavaScript truthiness of a `JVal`. -/
def truthy : JVal → Bool
  | .undef => false
  | .null => false
  | .bool b => b
  | .num n => n != 0
  | .nan => false
  | .str s => s ≠ ""

/-- JavaScript `String(v)` conversion. -/
def jsString : JVal → String
  | .undef => "undefined"
  | .null => "null"
  | .bool b => if b then "true" else "false"
  | .num n => toString n
  | .nan => "NaN"
  | .str s => s

/-- Function `normalizeVisibility` from `index.js`: falsy values give `"Public"`,
otherwise the trimmed lower-cased string form selects `"Private"` or
defaults to `"Public"`. -/
def normalizeVisibility (v : JVal) : String :=
  if truthy v = false then "Public"
  else if toLowerStr (trimStr (jsString v)) = "private" then "Private" else "Public"

/-- Numeric value of a list of decimal digit characters. -/
def digitsVal (cs : List Char) : Nat :=
  cs.foldl (fun acc c => acc * 10 + (c.toNat - 48)) 0

/-- Model of JS `Number(string)` restricted to integer literals: an empty
(trimmed) string is `0`, an optional sign followed by digits is its value,
anything else is `NaN` (`none`). -/
def parseNum (s : String) : Option Int :=
  match (trimStr s).data with
  | [] => some 0
  | '-' :: rest =>
      if rest ≠ [] ∧ rest.all Char.isDigit then some (-(digitsVal rest : Int)) else none
  | cs =>
      if cs.all Char.isDigit then some ((digitsVal cs : Nat) : Int) else none

/-- Model of JS `Number(v)`. -/
def jsNumber : JVal → JVal
  | .undef => .nan
  | .null => .num 0
  | .bool b => .num (if b then 1 else 0)
  | .num n => .num n
  | .nan => .nan
  | .str s =>
      match parseNum s with
      | some n => .num n
      | none => .nan

/-- The price guard of `POST /arts`: an empty-string, `null` or absent
price is passed through as the empty-string sentinel, anything else is
`Number`-coerced. -/
def coercePrice (v : JVal) : JVal :=
  if v = .str "" ∨ v = .null ∨ v = .undef then .str "" else jsNumber v

/-- JS `a || b` on strings where `""` models an absent or empty field. -/
def jsOrS (a b : String) : String :=
  if a = "" then b else a

/-- Truthiness of a possibly-absent string field (`none` = not present). -/
def truthyS : Option String → Bool
  | none => false
  | some s => s ≠ ""

/-- A stored BSON identifier value: MongoDB filters match on the value's
type as well, so an ObjectId value and a string value never compare
equal. -/
inductive BsonId where
  | oid (n : Nat)
  | str (s : String)
deriving DecidableEq, Repr

/-- The decimal/hex string form of a route identifier, as produced by JS
`String(id)`. -/
def idToString (n : Nat) : String :=
  toString n

/-- A stored artwork document (`arts` collection). -/
structure Art where
  id : Nat
  image : String
  title : String
  category : String
  medium : String
  description : String
  dimensions : String
  price : JVal
  visibility : String
  featured : Bool
  userName : String
  userEmail : String
  artistEmail : String
  artistPhoto : String
  likes : Int
  createdAt : Nat
  updatedAt : Nat
deriving DecidableEq, Repr

/-- A stored favorite document (`favorites` collection). -/
structure Favorite where
  id : Nat
  artId : BsonId
  userEmail : String
  createdAt : Nat
deriving DecidableEq, Repr

/-- A stored report document (`reports` collection). -/
structure Report where
  id : Nat
  artId : BsonId
  reporterEmail : String
  reason : String
  artTitle : String
  status : String
  createdAt : Nat
deriving DecidableEq, Repr

/-- A stored user document (`users` collection); optional fields model
document fields that a given write path may or may not have set. -/
structure User where
  email : String
  name : Option String
  displayName : Option String
  photoURL : Option String
  lastLogin : Option Nat
  role : Option String
  createdAt : Option Nat
deriving DecidableEq, Repr

/-- The four MongoDB collections the service uses. -/
structure DB where
  arts : List Art := []
  favorites : List Favorite := []
  users : List User := []
  reports : List Report := []
deriving DecidableEq, Repr

/-- The `updateOne` semantics on a collection: apply `f` to the first
document matching `p`, leave the rest unchanged. -/
def updateFirst (p : α → Bool) (f : α → α) : List α → List α
  | [] => []
  | a :: rest => if p a then f a :: rest else a :: updateFirst p f rest

/-- The `deleteOne` semantics on a collection: remove the first document
matching `p`. -/
def removeFirst (p : α → Bool) : List α → List α
  | [] => []
  | a :: rest => if p a then rest else a :: removeFirst p rest

/-! ## Route handlers

Each handler takes the database, the per-request clock reading `now`
(every `new Date()` inside one handler), a generated identifier `newId`
where an insert happens, and the request data; it returns the HTTP
status, the relevant response payload, and the new database.  A route
`:id` parameter is `Option Nat`: `none` models a string that fails
`ObjectId.isValid` (the 400 path). -/

/-- Request body of `POST /arts`; string fields use `""` for an absent
field (both are JS-falsy everywhere this handler looks at them). -/
structure CreateReq where
  title : String := ""
  image : String := ""
  userName : String := ""
  userEmail : String := ""
  email : String := ""
  artistEmail : String := ""
  uemail : String := ""
  category : String := ""
  medium : String := ""
  description : String := ""
  dimensions : String := ""
  artistPhoto : String := ""
  artistPhotoUrl : String := ""
  price : JVal := .undef
  visibility : JVal := .undef
  featured : JVal := .undef
deriving DecidableEq, Repr

/-- The alias chain `art.userEmail || art.email || art.artistEmail || art.uemail || ""`. -/
def emailFromBody (req : CreateReq) : String :=
  jsOrS req.userEmail (jsOrS req.email (jsOrS req.artistEmail req.uemail))

/-- The document `POST /arts` builds and inserts. -/
def createArtDoc (now newId : Nat) (req : CreateReq) : Art where
  id := newId
  image := req.image
  title := req.title
  category := jsOrS req.category "Uncategorized"
  medium := req.medium
  description := req.description
  dimensions := req.dimensions
  price := coercePrice req.price
  visibility := normalizeVisibility req.visibility
  featured := truthy req.featured
  userName := req.userName
  userEmail := toLowerStr (emailFromBody req)
  artistEmail := jsOrS req.artistEmail (toLowerStr (emailFromBody req))
  artistPhoto := jsOrS req.artistPhoto req.artistPhotoUrl
  likes := 0
  createdAt := now
  updatedAt := now

/-- The best-effort user upsert `POST /arts` performs after the insert:
`$set` of displayName/photoURL keyed on the stored email, with
role/createdAt only on insert. -/
def syncUserOnArt (db : DB) (now : Nat) (doc : Art) : DB :=
  if db.users.any (fun u => u.email == doc.userEmail) then
    let setPart : User → User := fun u =>
      { u with displayName := some doc.userName, photoURL := some doc.artistPhoto }
    { db with users := updateFirst (fun u => u.email == doc.userEmail) setPart db.users }
  else
    let inserted : User :=
      { email := doc.userEmail, name := none, displayName := some doc.userName,
        photoURL := some doc.artistPhoto, lastLogin := none,
        role := some "User", createdAt := some now }
    { db with users := db.users ++ [inserted] }

/-- Handler `POST /arts`: validates the email aliases and the required
title/image/userName, builds the document, inserts it, then best-effort
syncs the user record. -/
def createArt (db : DB) (now newId : Nat) (req : CreateReq) :
    (Nat × Option Art) × DB :=
  if emailFromBody req = "" then ((400, none), db)
  else if req.title = "" ∨ req.image = "" ∨ req.userName = "" then ((400, none), db)
  else
    let doc := createArtDoc now newId req
    let db1 : DB := { db with arts := db.arts ++ [doc] }
    ((201, some doc), syncUserOnArt db1 now doc)

/-- Body of `PATCH /arts/:id` (`{...req.body}`); `none` models a field
that the caller did not include.  `likes` and `createdAt` are carried
only to record that the handler deletes them before the `$set`. -/
structure UpdateReq where
  title : Option String := none
  image : Option String := none
  category : Option String := none
  medium : Option String := none
  description : Option String := none
  dimensions : Option String := none
  userName : Option String := none
  userEmail : Option String := none
  artistEmail : Option String := none
  artistPhoto : Option String := none
  visibility : Option String := none
  featured : Option Bool := none
  price : Option JVal := none
  likes : Option JVal := none
  createdAt : Option JVal := none
deriving DecidableEq, Repr

/-- The `$set` document of `PATCH /arts/:id` applied to a matched
artwork: caller-supplied `likes`/`createdAt` are deleted first,
`visibility` is re-normalized only when truthy (a present falsy value
such as `""` is `$set` verbatim), and `updatedAt` is always refreshed. -/
def applyUpdate (a : Art) (u : UpdateReq) (now : Nat) : Art where
  id := a.id
  image := u.image.getD a.image
  title := u.title.getD a.title
  category := u.category.getD a.category
  medium := u.medium.getD a.medium
  description := u.description.getD a.description
  dimensions := u.dimensions.getD a.dimensions
  price := u.price.getD a.price
  visibility :=
    match u.visibility with
    | none => a.visibility
    | some s => if s = "" then s else normalizeVisibility (.str s)
  featured := u.featured.getD a.featured
  userName := u.userName.getD a.userName
  userEmail := u.userEmail.getD a.userEmail
  artistEmail := u.artistEmail.getD a.artistEmail
  artistPhoto := u.artistPhoto.getD a.artistPhoto
  likes := a.likes
  createdAt := a.createdAt
  updatedAt := now

/-- The result object of a MongoDB `updateOne` (the part the service
returns to its caller). -/
structure UpdateResult where
  matchedCount : Nat
deriving DecidableEq, Repr

/-- Handler `PATCH /arts/:id`: 400 on malformed id, otherwise `updateOne` with
the filtered `$set` and a 200 echoing the update result — matched or
not. -/
def updateArt (db : DB) (now : Nat) (idp : Option Nat) (u : UpdateReq) :
    (Nat × Option UpdateResult) × DB :=
  match idp with
  | none => ((400, none), db)
  | some id =>
    let matched := if db.arts.any (fun a => a.id == id) then 1 else 0
    let arts' := updateFirst (fun a => a.id == id) (fun a => applyUpdate a u now) db.arts
    ((200, some { matchedCount := matched }), { db with arts := arts' })

/-- Handler `PATCH /arts/:id/like`: one atomic `$inc likes 1` on the matched
document, 404 when nothing matched, then a re-read of the counter. -/
def likeArt (db : DB) (idp : Option Nat) : (Nat × Option Int) × DB :=
  match idp with
  | none => ((400, none), db)
  | some id =>
    if db.arts.any (fun a => a.id == id) then
      let arts' := updateFirst (fun a => a.id == id)
        (fun a => { a with likes := a.likes + 1 }) db.arts
      let db' : DB := { db with arts := arts' }
      ((200, some (((db'.arts.find? (fun a => a.id == id)).map Art.likes).getD 0)), db')
    else ((404, none), db)

/-- The guard read of `PATCH /arts/:id/unlike`: the `findOne` projecting
the current `likes` (with the `|| 0` fallback a no-op on integers). -/
def unlikeGuard (db : DB) (id : Nat) : Option Int :=
  (db.arts.find? (fun a => a.id == id)).map Art.likes

/-- The decrement write of `PATCH /arts/:id/unlike`: a separate,
unconditional `updateOne` with `$inc likes (-1)`. -/
def unlikeDec (db : DB) (id : Nat) : DB :=
  let arts' := updateFirst (fun a => a.id == id)
    (fun a => { a with likes := a.likes - 1 }) db.arts
  { db with arts := arts' }

/-- Handler `PATCH /arts/:id/unlike`: guard read, 404 when absent, 400 when the
read counter is `≤ 0`, otherwise the separate decrement write and a
re-read of the counter. -/
def unlikeArt (db : DB) (idp : Option Nat) : (Nat × Option Int) × DB :=
  match idp with
  | none => ((400, none), db)
  | some id =>
    match unlikeGuard db id with
    | none => ((404, none), db)
    | some current =>
      if current ≤ 0 then ((400, none), db)
      else
        let db' := unlikeDec db id
        ((200, some ((unlikeGuard db' id).getD 0)), db')

/-- The result object of a MongoDB `deleteOne`. -/
structure DeleteResult where
  deletedCount : Nat
deriving DecidableEq, Repr

/-- Handler `DELETE /arts/:id`: a `deleteOne` on the artwork, then the best-effort
cascade — `deleteMany` on favorites with `artId = String(id)` (a string
value) and `deleteMany` on reports with `artId = ObjectId(id)`. -/
def deleteArt (db : DB) (idp : Option Nat) : (Nat × Option DeleteResult) × DB :=
  match idp with
  | none => ((400, none), db)
  | some id =>
    let deleted := if db.arts.any (fun a => a.id == id) then 1 else 0
    let arts' := removeFirst (fun a => a.id == id) db.arts
    let favs' := db.favorites.filter (fun f => ¬ f.artId = BsonId.str (idToString id))
    let reps' := db.reports.filter (fun r => ¬ r.artId = BsonId.oid id)
    ((200, some { deletedCount := deleted }),
      { db with arts := arts', favorites := favs', reports := reps' })

/-- Handler `POST /favorites`: validates presence and id shape, rejects with 409
when a document with the same `(ObjectId artId, userEmail)` pair exists,
otherwise inserts the pair verbatim with the current timestamp. -/
def addFavorite (db : DB) (now newId : Nat) (artIdp : Option Nat) (userEmail : String) :
    (Nat × Option Nat) × DB :=
  if userEmail = "" then ((400, none), db)
  else match artIdp with
  | none => ((400, none), db)
  | some artId =>
    match db.favorites.find?
        (fun f => f.artId == BsonId.oid artId && f.userEmail == userEmail) with
    | some _ => ((409, none), db)
    | none =>
      let doc : Favorite :=
        { id := newId, artId := BsonId.oid artId, userEmail := userEmail, createdAt := now }
      ((201, some newId), { db with favorites := db.favorites ++ [doc] })

/-- Handler `DELETE /favorites/:id`. -/
def removeFavorite (db : DB) (idp : Option Nat) : (Nat × Option DeleteResult) × DB :=
  match idp with
  | none => ((400, none), db)
  | some id =>
    let deleted := if db.favorites.any (fun f => f.id == id) then 1 else 0
    ((200, some { deletedCount := deleted }),
      { db with favorites := removeFirst (fun f => f.id == id) db.favorites })

/-- Body of `POST /users`. -/
structure UserSyncReq where
  email : String
  name : Option String := none
  displayName : Option String := none
  photoURL : Option String := none
deriving DecidableEq, Repr

/-- The fallback `user.name || user.displayName`. -/
def syncName (b : UserSyncReq) : Option String :=
  if truthyS b.name then b.name else b.displayName

/-- Handler `POST /users`: one atomic upsert keyed on the email — `$set` of
name/photoURL/lastLogin on every call, `$setOnInsert` of
email/createdAt/role only when inserting. -/
def upsertUser (db : DB) (now : Nat) (b : UserSyncReq) : DB :=
  if db.users.any (fun u => u.email == b.email) then
    let setPart : User → User := fun u =>
      { u with name := syncName b, photoURL := b.photoURL, lastLogin := some now }
    { db with users := updateFirst (fun u => u.email == b.email) setPart db.users }
  else
    let inserted : User :=
      { email := b.email, name := syncName b, displayName := none,
        photoURL := b.photoURL, lastLogin := some now,
        role := some "User", createdAt := some now }
    { db with users := db.users ++ [inserted] }

/-- Handler `POST /reports`: requires artId, reporterEmail and reason; stores the
artId as an ObjectId value with status `"pending"`. -/
def submitReport (db : DB) (now newId : Nat) (artIdp : Option Nat)
    (reporterEmail reason artTitle : String) : (Nat × Option Nat) × DB :=
  if reporterEmail = "" ∨ reason = "" then ((400, none), db)
  else match artIdp with
  | none => ((400, none), db)
  | some artId =>
    let doc : Report :=
      { id := newId, artId := BsonId.oid artId, reporterEmail := reporterEmail,
        reason := reason, artTitle := artTitle, status := "pending", createdAt := now }
    ((201, some newId), { db with reports := db.reports ++ [doc] })

/-- Handler `DELETE /admin/reports/:id`. -/
def resolveReport (db : DB) (idp : Option Nat) : (Nat × Option DeleteResult) × DB :=
  match idp with
  | none => ((400, none), db)
  | some id =>
    let deleted := if db.reports.any (fun r => r.id == id) then 1 else 0
    ((200, some { deletedCount := deleted }),
      { db with reports := removeFirst (fun r => r.id == id) db.reports })

/-- The likes invariant: every stored artwork has a non-negative
counter. -/
def LikesInv (db : DB) : Prop :=
  ∀ a ∈ db.arts, 0 ≤ a.likes

instance : DecidablePred LikesInv := fun db =>
  inferInstanceAs (Decidable (∀ a ∈ db.arts, 0 ≤ a.likes))

/-- A concrete artwork used by closed witnesses and counterexamples. -/
def mkArt (id : Nat) (likes : Int) : Art where
  id := id
  image := "img"
  title := "title"
  category := "Uncategorized"
  medium := ""
  description := ""
  dimensions := ""
  price := .str ""
  visibility := "Public"
  featured := false
  userName := "ana"
  userEmail := "ana@x.com"
  artistEmail := "ana@x.com"
  artistPhoto := ""
  likes := likes
  createdAt := 0
  updatedAt := 0

/-! ## Helper lemmas about the collection primitives -/

theorem updateFirst_of_no_match {p : α → Bool} {f : α → α} :
    ∀ {l : List α}, (∀ x ∈ l, p x = false) → updateFirst p f l = l
  | [], _ => rfl
  | a :: rest, h => by
    have ha := h a (List.mem_cons_self a rest)
    simp only [updateFirst, ha, Bool.false_eq_true, if_false]
    exact congrArg (a :: ·) (updateFirst_of_no_match fun x hx => h x (List.mem_cons_of_mem a hx))

theorem mem_updateFirst {p : α → Bool} {f : α → α} :
    ∀ {l : List α} {x : α}, x ∈ updateFirst p f l →
      x ∈ l ∨ ∃ y ∈ l, p y = true ∧ x = f y := by
  intro l
  induction l with
  | nil => intro x hx; exact absurd hx (List.not_mem_nil x)
  | cons a rest ih =>
    intro x hx
    by_cases ha : p a = true
    · simp only [updateFirst, ha, if_true] at hx
      rcases List.mem_cons.mp hx with h | h
      · exact Or.inr ⟨a, List.mem_cons_self a rest, ha, h⟩
      · exact Or.inl (List.mem_cons_of_mem a h)
    · simp only [updateFirst, ha, if_false] at hx
      rcases List.mem_cons.mp hx with h | h
      · exact Or.inl (h ▸ List.mem_cons_self a rest)
      · rcases ih h with h' | ⟨y, hy, hpy, hxy⟩
        · exact Or.inl (List.mem_cons_of_mem a h')
        · exact Or.inr ⟨y, List.mem_cons_of_mem a hy, hpy, hxy⟩

theorem updateFirst_append_match {p : α → Bool} {f : α → α} {u : α} :
    ∀ {pre : List α} (rest : List α), (∀ x ∈ pre, p x = false) → p u = true →
      updateFirst p f (pre ++ u :: rest) = pre ++ f u :: rest := by
  intro pre
  induction pre with
  | nil => intro rest _ hu; simp [updateFirst, hu]
  | cons a pre' ih =>
    intro rest h hu
    have ha := h a (List.mem_cons_self a pre')
    simp only [List.cons_append, updateFirst, ha, Bool.false_eq_true, if_false]
    exact congrArg (a :: ·) (ih rest (fun x hx => h x (List.mem_cons_of_mem a hx)) hu)

theorem mem_removeFirst {p : α → Bool} :
    ∀ {l : List α} {x : α}, x ∈ removeFirst p l → x ∈ l := by
  intro l
  induction l with
  | nil => intro x hx; exact absurd hx (List.not_mem_nil x)
  | cons a rest ih =>
    intro x hx
    by_cases ha : p a = true
    · simp only [removeFirst, ha, if_true] at hx
      exact List.mem_cons_of_mem a hx
    · simp only [removeFirst, ha, if_false] at hx
      rcases List.mem_cons.mp hx with h | h
      · exact h ▸ List.mem_cons_self a rest
      · exact List.mem_cons_of_mem a (ih h)

theorem likes_updateFirst_dec {id : Nat} :
    ∀ {l : List Art}, (∀ a ∈ l, 0 ≤ a.likes) →
      ∀ {c : Int}, ((l.find? (fun a => a.id == id)).map Art.likes) = some c → 0 < c →
      ∀ a ∈ updateFirst (fun a => a.id == id) (fun a => { a with likes := a.likes - 1 }) l,
        0 ≤ a.likes := by
  intro l
  induction l with
  | nil => intro _ c hc _; simp [List.find?] at hc
  | cons a rest ih =>
    intro h c hc hpos x hx
    by_cases ha : (a.id == id) = true
    · simp only [List.find?_cons, ha, if_true] at hc
      simp only [updateFirst, ha, if_true] at hx
      rcases List.mem_cons.mp hx with h' | h'
      · subst h'
        have hlikes : a.likes = c := by simpa using hc
        simp only [hlikes]
        omega
      · exact h x (List.mem_cons_of_mem a h')
    · simp only [List.find?_cons, ha, Bool.false_eq_true, if_false] at hc
      simp only [updateFirst, ha, if_false] at hx
      rcases List.mem_cons.mp hx with h' | h'
      · exact h' ▸ h a (List.mem_cons_self a rest)
      · exact ih (fun y hy => h y (List.mem_cons_of_mem a hy)) hc hpos x h'

theorem syncUserOnArt_arts (db : DB) (now : Nat) (doc : Art) :
    (syncUserOnArt db now doc).arts = db.arts := by
  unfold syncUserOnArt
  split <;> rfl

theorem addFavorite_arts (db : DB) (now newId : Nat) (aidp : Option Nat) (e : String) :
    (addFavorite db now newId aidp e).2.arts = db.arts := by
  unfold addFavorite
  split
  · rfl
  · split
    · rfl
    · split <;> rfl

theorem removeFavorite_arts (db : DB) (idp : Option Nat) :
    (removeFavorite db idp).2.arts = db.arts := by
  unfold removeFavorite
  split <;> rfl

theorem upsertUser_arts (db : DB) (now : Nat) (b : UserSyncReq) :
    (upsertUser db now b).arts = db.arts := by
  unfold upsertUser
  split <;> rfl

theorem submitReport_arts (db : DB) (now newId : Nat) (aidp : Option Nat)
    (re rs t : String) : (submitReport db now newId aidp re rs t).2.arts = db.arts := by
  unfold submitReport
  split
  · rfl
  · split <;> rfl

theorem resolveReport_arts (db : DB) (idp : Option Nat) :
    (resolveReport db idp).2.arts = db.arts := by
  unfold resolveReport
  split <;> rfl

theorem normalizeVisibility_cases (v : JVal) :
    normalizeVisibility v = "Public" ∨ normalizeVisibility v = "Private" := by
  unfold normalizeVisibility
  split
  · exact Or.inl rfl
  · split
    · exact Or.inr rfl
    · exact Or.inl rfl

/-! ## Claim theorems -/

/-- A state built through the service's own writes: artworks 1 and 2, a
favorite of each (stored with ObjectId `artId` values, as `POST
/favorites` does), and a report against artwork 1. -/
def cascadeDB : DB :=
  (submitReport
    (addFavorite
      (addFavorite { arts := [mkArt 1 0, mkArt 2 0] } 5 10 (some 1) "u@x.com").2
      6 11 (some 2) "u@x.com").2
    7 12 (some 1) "rep@x.com" "inappropriate" "title").2

/-- C1: Delete(1) removes the artwork and cascades the reports, but the
favorites cascade filters on the string form of the id while favorites
store ObjectId values, so the favorite referencing artwork 1 survives —
the favorites half of the cascade never removes anything. -/
theorem c1_delete_cascade_misses_favorites :
    (deleteArt cascadeDB (some 1)).1 = (200, some { deletedCount := 1 }) ∧
    (deleteArt cascadeDB (some 1)).2.arts.map Art.id = [2] ∧
    (deleteArt cascadeDB (some 1)).2.reports = [] ∧
    (deleteArt cascadeDB (some 1)).2.favorites = cascadeDB.favorites ∧
    cascadeDB.favorites.map Favorite.artId = [BsonId.oid 1, BsonId.oid 2] := by
  decide

/-- C2: the Unlike handler's guard and decrement are two separate store
calls (`unlikeGuard` then `unlikeDec`, exactly as `unlikeArt` composes
them), so with one artwork at `likes = 1`, two concurrent Unlike calls
that both run their guard read before either decrement both pass the
guard, and the two decrements drive the counter to `-1`. -/
theorem c2_unlike_guard_decrement_race :
    unlikeGuard { arts := [mkArt 1 1] } 1 = some 1 ∧
    (0 : Int) < 1 ∧
    unlikeArt { arts := [mkArt 1 1] } (some 1) =
      ((200, some 0), unlikeDec { arts := [mkArt 1 1] } 1) ∧
    ((unlikeDec (unlikeDec { arts := [mkArt 1 1] } 1) 1).arts.find?
        (fun a => a.id == 1)).map Art.likes = some (-1) := by
  decide

/-- C3: `likes ≥ 0` for every stored artwork is preserved by every
sequentially executed operation — Create initializes the counter to 0,
Like adds one, Unlike rejects with 400 whenever the read counter is
`≤ 0` and otherwise subtracts one, Update strips any caller-supplied
`likes`, and no other operation touches the counter. -/
theorem c3_likes_invariant_preserved :
    (∀ (db : DB) (now newId : Nat) (req : CreateReq),
      LikesInv db → LikesInv (createArt db now newId req).2) ∧
    (∀ (db : DB) (now : Nat) (idp : Option Nat) (u : UpdateReq),
      LikesInv db → LikesInv (updateArt db now idp u).2) ∧
    (∀ (db : DB) (idp : Option Nat), LikesInv db → LikesInv (likeArt db idp).2) ∧
    (∀ (db : DB) (idp : Option Nat), LikesInv db → LikesInv (unlikeArt db idp).2) ∧
    (∀ (db : DB) (idp : Option Nat), LikesInv db → LikesInv (deleteArt db idp).2) ∧
    (∀ (db : DB) (now newId : Nat) (aidp : Option Nat) (e : String),
      LikesInv db → LikesInv (addFavorite db now newId aidp e).2) ∧
    (∀ (db : DB) (idp : Option Nat), LikesInv db → LikesInv (removeFavorite db idp).2) ∧
    (∀ (db : DB) (now : Nat) (b : UserSyncReq), LikesInv db → LikesInv (upsertUser db now b)) ∧
    (∀ (db : DB) (now newId : Nat) (aidp : Option Nat) (re rs t : String),
      LikesInv db → LikesInv (submitReport db now newId aidp re rs t).2) ∧
    (∀ (db : DB) (idp : Option Nat), LikesInv db → LikesInv (resolveReport db idp).2) ∧
    (∀ (now newId : Nat) (req : CreateReq), (createArtDoc now newId req).likes = 0) ∧
    (∀ (a : Art) (u : UpdateReq) (now : Nat), (applyUpdate a u now).likes = a.likes) ∧
    (∀ (db : DB) (id : Nat) (c : Int), unlikeGuard db id = some c → c ≤ 0 →
      unlikeArt db (some id) = ((400, none), db)) := by
  refine ⟨?_, ?_, ?_, ?_, ?_, ?_, ?_, ?_, ?_, ?_, ?_, ?_, ?_⟩
  · intro db now newId req h
    by_cases h1 : emailFromBody req = ""
    · simpa [createArt, h1] using h
    · by_cases h2 : req.title = "" ∨ req.image = "" ∨ req.userName = ""
      · simpa [createArt, h1, h2] using h
      · unfold createArt
        rw [if_neg h1, if_neg h2]
        unfold LikesInv
        rw [syncUserOnArt_arts]
        intro a ha
        rcases List.mem_append.mp ha with hmem | hmem
        · exact h a hmem
        · rw [List.mem_singleton.mp hmem]
          exact le_refl 0
  · intro db now idp u h
    cases idp with
    | none => exact h
    | some id =>
      intro a ha
      rcases mem_updateFirst ha with hmem | ⟨y, hy, _, rfl⟩
      · exact h a hmem
      · exact h y hy
  · intro db idp h
    cases idp with
    | none => exact h
    | some id =>
      by_cases hany : db.arts.any (fun a => a.id == id)
      · simp only [likeArt, hany, if_true]
        intro a ha
        rcases mem_updateFirst ha with hmem | ⟨y, hy, _, rfl⟩
        · exact h a hmem
        · have := h y hy
          simp only
          omega
      · simp only [likeArt, hany, Bool.false_eq_true, if_false]
        exact h
  · intro db idp h
    cases idp with
    | none => exact h
    | some id =>
      cases hguard : unlikeGuard db id with
      | none => simp only [unlikeArt, hguard]; exact h
      | some c =>
        by_cases hc : c ≤ 0
        · simp only [unlikeArt, hguard, if_pos hc]
          exact h
        · simp only [unlikeArt, hguard, if_neg hc]
          have hfind : ((db.arts.find? (fun a => a.id == id)).map Art.likes) = some c := hguard
          exact likes_updateFirst_dec h hfind (by omega)
  · intro db idp h
    cases idp with
    | none => exact h
    | some id =>
      intro a ha
      exact h a (mem_removeFirst ha)
  · intro db now newId aidp e h
    unfold LikesInv
    rw [addFavorite_arts]
    exact h
  · intro db idp h
    unfold LikesInv
    rw [removeFavorite_arts]
    exact h
  · intro db now b h
    unfold LikesInv
    rw [upsertUser_arts]
    exact h
  · intro db now newId aidp re rs t h
    unfold LikesInv
    rw [submitReport_arts]
    exact h
  · intro db idp h
    unfold LikesInv
    rw [resolveReport_arts]
    exact h
  · intro now newId req
    rfl
  · intro a u now
    rfl
  · intro db id c hguard hc
    simp only [unlikeArt, hguard, if_pos hc]

/-- Witness for C3 at a one-artwork store with `likes = 1`. -/
theorem c3_likes_invariant_witness :
    LikesInv (likeArt { arts := [mkArt 1 1] } (some 1)).2 ∧
    LikesInv (unlikeArt { arts := [mkArt 1 1] } (some 1)).2 :=
  ⟨c3_likes_invariant_preserved.2.2.1 { arts := [mkArt 1 1] } (some 1) (by decide),
   c3_likes_invariant_preserved.2.2.2.1 { arts := [mkArt 1 1] } (some 1) (by decide)⟩

/-- C5: a valid Create — resolvable email and truthy title/image/
userName — returns 201 with the stored document, whose `likes` is 0,
whose `visibility` is exactly `"Public"` or `"Private"`, whose
`createdAt` equals its `updatedAt`, and whose `userEmail` is the
lower-casing of the resolved supplied email. -/
theorem c5_create_result_fields (db : DB) (now newId : Nat) (req : CreateReq)
    (he : emailFromBody req ≠ "") (ht : req.title ≠ "") (hi : req.image ≠ "")
    (hu : req.userName ≠ "") :
    (createArt db now newId req).1 = (201, some (createArtDoc now newId req)) ∧
    (createArtDoc now newId req).likes = 0 ∧
    ((createArtDoc now newId req).visibility = "Public" ∨
      (createArtDoc now newId req).visibility = "Private") ∧
    (createArtDoc now newId req).createdAt = (createArtDoc now newId req).updatedAt ∧
    (createArtDoc now newId req).userEmail = toLowerStr (emailFromBody req) := by
  refine ⟨?_, rfl, normalizeVisibility_cases req.visibility, rfl, rfl⟩
  unfold createArt
  rw [if_neg he, if_neg (by simp [ht, hi, hu])]

/-- The spec's example Create input: `{title:"Sunset", image:"u1",
userName:"Ana", userEmail:"Ana@x.com"}`. -/
def reqSunset : CreateReq :=
  { title := "Sunset", image := "u1", userName := "Ana", userEmail := "Ana@x.com" }

/-- Witness for C5 at the spec's example input. -/
theorem c5_create_result_fields_witness :
    (createArt {} 7 1 reqSunset).1 = (201, some (createArtDoc 7 1 reqSunset)) ∧
    (createArtDoc 7 1 reqSunset).userEmail = "ana@x.com" ∧
    (createArtDoc 7 1 reqSunset).likes = 0 ∧
    (createArtDoc 7 1 reqSunset).visibility = "Public" := by
  have h := c5_create_result_fields {} 7 1 reqSunset
    (by decide) (by decide) (by decide) (by decide)
  exact ⟨h.1, by decide, h.2.1, by decide⟩

/-- C6 counterexample: with an empty store, Update at the well-formed id
1 answers 200 with `matchedCount = 0` — not 404. -/
theorem c6_update_missing_id_returns_200 :
    updateArt {} 5 (some 1) {} = ((200, some { matchedCount := 0 }), {}) ∧
    (updateArt {} 5 (some 1) {}).1.1 ≠ 404 := by
  decide

/-- C6 as amended: Update with a well-formed id matching no stored
artwork returns 200 with an update result whose `matchedCount` is 0 and
leaves the store unchanged; it does not fail with 404. -/
theorem c6_update_missing_id_matched_zero (db : DB) (now id : Nat) (u : UpdateReq)
    (habs : ∀ a ∈ db.arts, a.id ≠ id) :
    updateArt db now (some id) u = ((200, some { matchedCount := 0 }), db) := by
  have hfalse : ∀ a ∈ db.arts, (a.id == id) = false := by
    intro a ha
    exact beq_eq_false_iff_ne.mpr (habs a ha)
  have hany : db.arts.any (fun a => a.id == id) = false := by
    rw [List.any_eq_false]
    intro a ha
    simp [hfalse a ha]
  simp only [updateArt, hany, Bool.false_eq_true, if_false,
    updateFirst_of_no_match hfalse]

/-- Witness for C6's amended statement at an empty store and id 3. -/
theorem c6_update_missing_id_matched_zero_witness :
    updateArt {} 9 (some 3) {} = ((200, some { matchedCount := 0 }), {}) :=
  c6_update_missing_id_matched_zero {} 9 3 {} (by decide)

/-- The favorite document `POST /favorites` inserts. -/
def mkFav (id aid : Nat) (e : String) (t : Nat) : Favorite where
  id := id
  artId := BsonId.oid aid
  userEmail := e
  createdAt := t

/-- C7: once `Add(artId, userEmail)` has succeeded, the store holds
exactly one favorite for that pair, and a second sequential `Add` of the
same pair answers 409 leaving the favorites collection unchanged. -/
theorem c7_favorite_duplicate_conflict (db db' : DB) (now newId now' newId' aid : Nat)
    (e : String)
    (h : addFavorite db now newId (some aid) e = ((201, some newId), db')) :
    (db'.favorites.filter
      (fun f => f.artId == BsonId.oid aid && f.userEmail == e)).length = 1 ∧
    addFavorite db' now' newId' (some aid) e = ((409, none), db') := by
  by_cases he : e = ""
  · simp [addFavorite, he] at h
  · cases hfind : db.favorites.find?
        (fun f => f.artId == BsonId.oid aid && f.userEmail == e) with
    | some f => simp [addFavorite, he, hfind] at h
    | none =>
      simp only [addFavorite, he, if_false, hfind] at h
      have hdb : { db with favorites := db.favorites ++ [mkFav newId aid e now] } = db' := by
        have h2 := congrArg Prod.snd h
        simpa [mkFav] using h2
      subst hdb
      have hnone : ∀ f ∈ db.favorites,
          ¬(f.artId == BsonId.oid aid && f.userEmail == e) = true := by
        intro f hf
        simpa using List.find?_eq_none.mp hfind f hf
      constructor
      · simp only [List.filter_append, List.filter_eq_nil_iff.mpr hnone,
          List.nil_append, List.filter_cons]
        simp [mkFav]
      · simp [addFavorite, he, hfind, mkFav]

/-- Witness store after a first successful favorite insert. -/
def dbFav : DB :=
  { favorites := [mkFav 10 1 "u@x.com" 5] }

/-- Witness for C7: a concrete first Add succeeds and the second Add of
the same pair gets 409 with exactly one row stored. -/
theorem c7_favorite_duplicate_conflict_witness :
    (dbFav.favorites.filter
      (fun f => f.artId == BsonId.oid 1 && f.userEmail == "u@x.com")).length = 1 ∧
    addFavorite dbFav 6 11 (some 1) "u@x.com" = ((409, none), dbFav) :=
  c7_favorite_duplicate_conflict {} dbFav 5 10 6 11 1 "u@x.com" (by decide)

/-- C4 counterexample: `POST /favorites` is a write path that stores the
supplied email verbatim — `"Ana@x.com"` is stored, which differs from
its lower-casing. -/
theorem c4_favorite_email_not_lowercased :
    (addFavorite {} 5 10 (some 1) "Ana@x.com").1.1 = 201 ∧
    (addFavorite {} 5 10 (some 1) "Ana@x.com").2.favorites.map Favorite.userEmail =
      ["Ana@x.com"] ∧
    "Ana@x.com" ≠ toLowerStr "Ana@x.com" := by
  decide

/-- C4 as amended: only artwork Create lower-cases its stored
`userEmail`; artwork Update and favorite Add store email fields exactly
as supplied, with no lower-casing. -/
theorem c4_email_write_paths :
    (∀ (now newId : Nat) (req : CreateReq),
      (createArtDoc now newId req).userEmail = toLowerStr (emailFromBody req)) ∧
    (∀ (a : Art) (u : UpdateReq) (now : Nat) (v : String),
      u.userEmail = some v → (applyUpdate a u now).userEmail = v) ∧
    (∀ (db : DB) (now newId aid : Nat) (e : String), e ≠ "" →
      db.favorites.find?
        (fun f => f.artId == BsonId.oid aid && f.userEmail == e) = none →
      (addFavorite db now newId (some aid) e).2.favorites =
        db.favorites ++ [mkFav newId aid e now]) := by
  refine ⟨fun _ _ _ => rfl, ?_, ?_⟩
  · intro a u now v hv
    simp [applyUpdate, hv]
  · intro db now newId aid e he hfind
    simp [addFavorite, he, hfind, mkFav]

/-- Witness for C4's amended statement: a create, an update and a
favorite insert each evaluated at a concrete email. -/
theorem c4_email_write_paths_witness :
    (createArtDoc 7 1 reqSunset).userEmail = toLowerStr (emailFromBody reqSunset) ∧
    (applyUpdate (mkArt 1 0) { userEmail := some "Ana@X.com" } 5).userEmail =
      "Ana@X.com" ∧
    (addFavorite {} 5 11 (some 2) "Bob@x.com").2.favorites =
      [mkFav 11 2 "Bob@x.com" 5] := by
  refine ⟨c4_email_write_paths.1 7 1 reqSunset,
    c4_email_write_paths.2.1 (mkArt 1 0) { userEmail := some "Ana@X.com" } 5
      "Ana@X.com" rfl, ?_⟩
  have h := c4_email_write_paths.2.2 {} 5 11 2 "Bob@x.com" (by decide) (by decide)
  simpa using h

/-- The user document the `POST /users` upsert inserts for a new
email. -/
def insertedUser (b : UserSyncReq) (now : Nat) : User where
  email := b.email
  name := syncName b
  displayName := none
  photoURL := b.photoURL
  lastLogin := some now
  role := some "User"
  createdAt := some now

/-- The `$set` part of the `POST /users` upsert, applied to an existing
user: name, photoURL and lastLogin are set; email, role, createdAt and
displayName are untouched. -/
def syncSet (b : UserSyncReq) (now : Nat) (u : User) : User :=
  { u with name := syncName b, photoURL := b.photoURL, lastLogin := some now }

/-- C8: the login upsert inserts role = `"User"` and `createdAt = now`
for a fresh email, and for an existing user (wherever it sits in the
collection) it applies only the `$set` of name/photoURL/lastLogin —
`syncSet` keeps `role` and `createdAt` (and email and displayName)
exactly as stored, so an elevated role survives every later sync. -/
theorem c8_user_sync_frame :
    (∀ (db : DB) (now : Nat) (b : UserSyncReq),
      (∀ u ∈ db.users, u.email ≠ b.email) →
      (upsertUser db now b).users = db.users ++ [insertedUser b now]) ∧
    (∀ (db : DB) (now : Nat) (b : UserSyncReq) (pre rest : List User) (u : User),
      db.users = pre ++ u :: rest → (∀ x ∈ pre, x.email ≠ b.email) →
      u.email = b.email →
      (upsertUser db now b).users = pre ++ syncSet b now u :: rest) ∧
    (∀ (b : UserSyncReq) (now : Nat) (u : User),
      (syncSet b now u).role = u.role ∧ (syncSet b now u).createdAt = u.createdAt ∧
      (syncSet b now u).name = syncName b ∧ (syncSet b now u).photoURL = b.photoURL ∧
      (syncSet b now u).lastLogin = some now) := by
  refine ⟨?_, ?_, fun _ _ _ => ⟨rfl, rfl, rfl, rfl, rfl⟩⟩
  · intro db now b h
    have hany : db.users.any (fun u => u.email == b.email) = false := by
      rw [List.any_eq_false]
      intro u hu
      simp [h u hu]
    simp [upsertUser, hany, insertedUser]
  · intro db now b pre rest u hdb hpre hu
    have hmem : u ∈ db.users := by
      rw [hdb]
      exact List.mem_append.mpr (Or.inr (List.mem_cons_self u rest))
    have hany : db.users.any (fun x => x.email == b.email) = true :=
      List.any_eq_true.mpr ⟨u, hmem, beq_iff_eq.mpr hu⟩
    have hpref : ∀ x ∈ pre, ((fun x : User => x.email == b.email) x) = false := by
      intro x hx
      exact beq_eq_false_iff_ne.mpr (hpre x hx)
    have hup : ((fun x : User => x.email == b.email) u) = true := beq_iff_eq.mpr hu
    rw [hdb] at hany
    simp only [upsertUser, hdb, hany, if_true]
    rw [updateFirst_append_match rest hpref hup]
    rfl

/-- A stored user whose role was elevated to Admin before a second
sync. -/
def adminUser : User where
  email := "a@x.com"
  name := some "Old"
  displayName := none
  photoURL := none
  lastLogin := some 1
  role := some "Admin"
  createdAt := some 1

/-- Witness for C8: a fresh-email sync inserts role `"User"`, and a
second sync over an Admin user keeps role `"Admin"` and `createdAt`. -/
theorem c8_user_sync_frame_witness :
    (upsertUser {} 9 { email := "b@x.com", name := some "B" }).users =
      [insertedUser { email := "b@x.com", name := some "B" } 9] ∧
    (upsertUser { users := [adminUser] } 9 { email := "a@x.com", name := some "New" }).users =
      [syncSet { email := "a@x.com", name := some "New" } 9 adminUser] ∧
    (syncSet { email := "a@x.com", name := some "New" } 9 adminUser).role = some "Admin" ∧
    (syncSet { email := "a@x.com", name := some "New" } 9 adminUser).createdAt = some 1 := by
  refine ⟨?_, ?_, rfl, rfl⟩
  · have h := c8_user_sync_frame.1 {} 9 { email := "b@x.com", name := some "B" }
      (by intro u hu; exact absurd hu (List.not_mem_nil u))
    simpa using h
  · have h := c8_user_sync_frame.2.1 { users := [adminUser] } 9
      { email := "a@x.com", name := some "New" } [] [] adminUser rfl
      (by intro x hx; exact absurd hx (List.not_mem_nil x)) rfl
    simpa using h

/-- C9: the stored price of a created artwork is the guarded coercion:
an empty-string, `null` or absent input price passes through as the
empty-string sentinel, which is not the number 0 (nor any number), and
every other input is stored as its JS numeric coercion. -/
theorem c9_price_sentinel :
    (∀ (now newId : Nat) (req : CreateReq),
      (createArtDoc now newId req).price = coercePrice req.price) ∧
    (∀ v : JVal, (v = .str "" ∨ v = .null ∨ v = .undef) → coercePrice v = .str "") ∧
    (∀ n : Int, JVal.str "" ≠ JVal.num n) ∧
    (∀ v : JVal, ¬(v = .str "" ∨ v = .null ∨ v = .undef) → coercePrice v = jsNumber v) := by
  refine ⟨fun _ _ _ => rfl, ?_, ?_, ?_⟩
  · intro v hv
    unfold coercePrice
    rw [if_pos hv]
  · intro n h
    cases h
  · intro v hv
    unfold coercePrice
    rw [if_neg hv]

/-- Witness for C9: a `null` price is stored as the sentinel, a numeric
price as its number, and the sentinel differs from the number 0. -/
theorem c9_price_sentinel_witness :
    coercePrice JVal.null = JVal.str "" ∧
    coercePrice (JVal.num 12) = JVal.num 12 ∧
    JVal.str "" ≠ JVal.num 0 := by
  refine ⟨c9_price_sentinel.2.1 .null (Or.inr (Or.inl rfl)), ?_,
    c9_price_sentinel.2.2.1 0⟩
  have h := c9_price_sentinel.2.2.2 (.num 12) (by decide)
  exact h.trans rfl

/-- C10 counterexample: Update with a present-but-empty visibility
stores `""` verbatim — neither `"Public"` nor `"Private"` — so Update
does not coerce every invalid visibility value to `"Public"`. -/
theorem c10_update_empty_visibility_not_coerced :
    ((updateArt { arts := [mkArt 1 0] } 5 (some 1)
        { visibility := some "" }).2.arts.map Art.visibility) = [""] ∧
    ("" : String) ≠ "Public" ∧ ("" : String) ≠ "Private" := by
  decide

/-- C10 as amended: `normalizeVisibility` never rejects — it returns
`"Private"` exactly when the trimmed lower-cased string form of the
input is `"private"` and `"Public"` for every other value — and Create
always applies it; Update applies it only to a truthy visibility value,
storing a present falsy value such as `""` verbatim. -/
theorem c10_visibility_normalization :
    (∀ v : JVal, normalizeVisibility v = "Private" ↔
      toLowerStr (trimStr (jsString v)) = "private") ∧
    (∀ v : JVal, normalizeVisibility v = "Public" ∨ normalizeVisibility v = "Private") ∧
    (∀ (now newId : Nat) (req : CreateReq),
      (createArtDoc now newId req).visibility = normalizeVisibility req.visibility) ∧
    (∀ (a : Art) (u : UpdateReq) (now : Nat) (s : String),
      u.visibility = some s → s ≠ "" →
      (applyUpdate a u now).visibility = normalizeVisibility (.str s)) ∧
    (∀ (a : Art) (u : UpdateReq) (now : Nat), u.visibility = some "" →
      (applyUpdate a u now).visibility = "") := by
  refine ⟨?_, normalizeVisibility_cases, fun _ _ _ => rfl, ?_, ?_⟩
  · intro v
    cases v with
    | undef => decide
    | null => decide
    | nan => decide
    | bool b => cases b <;> decide
    | num n =>
      by_cases hn : n = 0
      · subst hn
        decide
      · have ht : truthy (.num n) = true := by simp [truthy, hn]
        unfold normalizeVisibility
        rw [ht]
        simp only [Bool.true_eq_false, if_false, jsString]
        split <;> simp_all
    | str s =>
      by_cases hs : s = ""
      · subst hs
        decide
      · have ht : truthy (.str s) = true := by simp [truthy, hs]
        unfold normalizeVisibility
        rw [ht]
        simp only [Bool.true_eq_false, if_false, jsString]
        split <;> simp_all
  · intro a u now s hvis hs
    simp [applyUpdate, hvis, hs]
  · intro a u now hvis
    simp [applyUpdate, hvis]

/-- Witness for C10: a truthy `" PRIVATE "` update normalizes to
`"Private"`, and the unrecognized string `"hidden"` maps to
`"Public"`. -/
theorem c10_visibility_normalization_witness :
    (applyUpdate (mkArt 1 0) { visibility := some " PRIVATE " } 5).visibility =
      "Private" ∧
    normalizeVisibility (JVal.str "hidden") = "Public" := by
  constructor
  · have h := c10_visibility_normalization.2.2.2.1 (mkArt 1 0)
      { visibility := some " PRIVATE " } 5 " PRIVATE " rfl (by decide)
    rw [h]
    decide
  · rcases c10_visibility_normalization.2.1 (JVal.str "hidden") with h | h
    · exact h
    · exact absurd ((c10_visibility_normalization.1 (JVal.str "hidden")).mp h)
        (by decide)

end Artify
